import Mathlib

/-!
Verification of the Twilio voice-agent bridge server (src/server.py).

The development shallowly embeds the parts of the server the claims are
about: the process-wide caller-info cache, the Zoho CRM lookup functions,
the knowledge-base search with its polling loop, the incoming-call webhook
handler, and the two relay loops of the media-stream websocket endpoint.
External effects (HTTP calls to Zoho and OpenAI, websocket sends) are
modelled as oracles passed in explicitly; a raised exception is modelled
as `Except.error`.
-/

namespace TwilioAgent

/-- A CRM lead record as returned by the Zoho COQL queries
(`SELECT First_Name, Last_Name, Email, Phone, Mobile, Lead_Status,
Training_Status, ... , Language FROM Leads` in src/server.py).
JSON fields may be null or absent, hence optional strings. -/
structure Record where
  First_Name : Option String := none
  Last_Name : Option String := none
  Email : Option String := none
  Phone : Option String := none
  Mobile : Option String := none
  Lead_Status : Option String := none
  Training_Status : Option String := none
  Language : Option String := none
deriving Repr, DecidableEq

/-- Python truthiness of an optional string argument: `None` and `""` are
falsy (the `if phone:` style guards in src/server.py). -/
def truthy : Option String → Bool
  | none => false
  | some s => s ≠ ""

/-- The result dict of `lookup_application_status` (src/server.py 305-347):
either a `found=False` shape with a human-readable message (lines 317 and
320), or the `found=True` shape of lines 339-347. -/
inductive LookupResult
  | notFound (message : String)
  | found (first_name last_name status : String)
      (language training_status : Option String) (message : String)
deriving Repr, DecidableEq

/-- The per-call context stored by the webhook: the dict literal
`{"phone": caller_phone, "prefetch_result": prefetch_result}`
(src/server.py 492-495). `prefetch_result` is `None` when no caller
phone was available. -/
structure CallerInfo where
  phone : String
  prefetch_result : Option LookupResult
deriving Repr, DecidableEq

/-- The process-wide `caller_info_cache` dict (src/server.py 32), modelled
as an association list in which assignment erases any earlier binding for
the same key, so at most one entry per key exists by construction. -/
abbrev Store := List (String × CallerInfo)

/-- Removal of every binding of key `k` (`del cache[k]`). -/
def Store.eraseKey (k : String) (s : Store) : Store :=
  s.filter (fun e => e.1 ≠ k)

/-- `caller_info_cache[call_sid] = {...}` (src/server.py 492): insert or
overwrite. -/
def Store.put (k : String) (v : CallerInfo) (s : Store) : Store :=
  (k, v) :: Store.eraseKey k s

/-- Membership test plus read: `call_sid in caller_info_cache` and
`caller_info_cache[call_sid]`. -/
def Store.lookup (k : String) (s : Store) : Option CallerInfo :=
  (s.find? (fun e => e.1 = k)).map (fun e => e.2)

/-- The read-and-delete performed by the `start` handler
(src/server.py 585-591): `if call_sid in cache: cached = cache[call_sid];
... ; del cache[call_sid]`. Returns the entry, if present, and the cache
after the deletion. -/
def Store.takeIfPresent (k : String) (s : Store) : Option CallerInfo × Store :=
  match Store.lookup k s with
  | some v => (some v, Store.eraseKey k s)
  | none => (none, s)

/-- The number of entries a cache holds for key `k`. -/
def Store.countKey (k : String) (s : Store) : Nat :=
  (s.filter (fun e => e.1 = k)).length

/-- Python `value.replace("'", "''")` at the character level: double every
single quote. -/
def doubleQuotes : List Char → List Char
  | [] => []
  | c :: rest =>
    if c = '\'' then c :: c :: doubleQuotes rest else c :: doubleQuotes rest

/-- `sanitize_coql_input` (src/server.py 163-166): double every single
quote; empty (falsy) input returned unchanged. -/
def sanitize_coql_input (value : String) : String :=
  if value = "" then value else String.mk (doubleQuotes value.data)

/-- `clean_phone = ''.join(filter(str.isdigit, phone))` (src/server.py 201). -/
def digitsOnly (phone : String) : String :=
  String.mk (phone.data.filter Char.isDigit)

/-- Python `clean_phone[-10:]`: the last 10 characters, or the whole string
when it is shorter (src/server.py 202). -/
def lastTen (s : String) : String :=
  s.drop (s.length - 10)

/-- The key `search_by_phone` embeds in its COQL `like` query
(src/server.py 201-202): sanitize the last ten digits. -/
def phoneKey (phone : String) : String :=
  sanitize_coql_input (lastTen (digitsOnly phone))

/-- The Zoho CRM effects the search functions depend on, as oracles.
`Except.error` models a raised exception (httpx network failure);
`.ok none` a non-200 response or empty `data` array; `.ok (some r)` a hit.
`token` models `get_zoho_access_token` (src/server.py 169-193), which
returns `None` when credentials are missing. The query oracles take the
already-sanitized key embedded in the COQL text. -/
structure ZohoEnv where
  token : Except Unit (Option String)
  phoneQuery : String → Except Unit (Option Record)
  emailQuery : String → Except Unit (Option Record)
  nameQuery : String → String → Except Unit (List Record)

/-- `search_by_phone` (src/server.py 196-229): fetch a token (missing
credentials yield `None` and the function returns `None`), clean the
phone number, query COQL keyed by the cleaned number, return the first
row if any. -/
def search_by_phone (env : ZohoEnv) (phone : String) :
    Except Unit (Option Record) := do
  let t ← env.token
  match t with
  | none => return none
  | some _ => env.phoneQuery (phoneKey phone)

/-- `search_by_email` (src/server.py 232-264): same shape, keyed by the
sanitized email. -/
def search_by_email (env : ZohoEnv) (email : String) :
    Except Unit (Option Record) := do
  let t ← env.token
  match t with
  | none => return none
  | some _ => env.emailQuery (sanitize_coql_input email)

/-- What `search_by_name` returns (src/server.py 267-302): `None`, the
`{"multiple_matches": True, "count": n}` marker dict, or the single
matching record. -/
inductive NameSearchResult
  | noMatch
  | multipleMatches (count : Nat)
  | one (r : Record)
deriving Repr, DecidableEq

/-- `search_by_name` (src/server.py 267-302): query COQL by sanitized first
and last name (`LIMIT 5`); more than one row yields the multiple-matches
marker, exactly one yields that record. -/
def search_by_name (env : ZohoEnv) (first_name last_name : String) :
    Except Unit NameSearchResult := do
  let t ← env.token
  match t with
  | none => return .noMatch
  | some _ =>
    let rows ← env.nameQuery (sanitize_coql_input first_name)
      (sanitize_coql_input last_name)
    match rows with
    | [] => return .noMatch
    | [r] => return .one r
    | rs => return .multipleMatches rs.length

/-- Python `contact.get("Lead_Status") or "Unknown"` (src/server.py 322):
`None` and `""` both fall back to `"Unknown"`. -/
def orUnknown : Option String → String
  | none => "Unknown"
  | some s => if s = "" then "Unknown" else s

/-- The `status_messages` dict (src/server.py 326-335). -/
def status_messages (status : String) : Option String :=
  if status = "Not Contacted" then
    some "We have received your application and will contact you soon."
  else if status = "Contacted" then
    some "We have reached out to you. Please check your email or phone."
  else if status = "Pre-Qualified" then
    some "Your application is currently being reviewed."
  else if status = "Qualified" then
    some "Congratulations! You have been qualified. We will reach out with next steps."
  else if status = "Not Qualified" then
    some "Unfortunately, your application did not meet our requirements at this time."
  else if status = "Invited for training" then
    some "You have been invited for training. Please check your email."
  else if status = "Scheduled for Next training" then
    some "You are scheduled for our next training session."
  else if status = "Training completed successfully" then
    some "Congratulations! You have completed your training successfully."
  else none

/-- The `found=True` result built from a contact record
(src/server.py 322-347), with the dict-miss default
`f"Your current status is: {status}"`. -/
def statusObject (contact : Record) : LookupResult :=
  let status := orUnknown contact.Lead_Status
  .found (contact.First_Name.getD "") (contact.Last_Name.getD "") status
    contact.Language contact.Training_Status
    ((status_messages status).getD ("Your current status is: " ++ status))

/-- `lookup_application_status` (src/server.py 305-347): try phone, then
email, then first+last name, each branch guarded by the argument being
truthy and by no earlier contact; a multiple-matches name result returns
the ambiguous shape; no contact at all returns the not-found shape. -/
def lookup_application_status (env : ZohoEnv)
    (phone email first_name last_name : Option String) :
    Except Unit LookupResult := do
  let mut contact : Option Record := none
  if truthy phone then
    contact ← search_by_phone env (phone.getD "")
  if contact.isNone && truthy email then
    contact ← search_by_email env (email.getD "")
  if contact.isNone && (truthy first_name && truthy last_name) then
    let nr ← search_by_name env (first_name.getD "") (last_name.getD "")
    match nr with
    | .multipleMatches _ =>
      return .notFound "Multiple candidates found with that name. Please provide your phone number or email."
    | .one r => contact := some r
    | .noMatch => pure ()
  match contact with
  | none => return .notFound "I couldn\'t find a record with that information."
  | some c => return statusObject c

/-- The answer dict of `search_knowledge_base`:
`{"found": bool, "answer": str}`. -/
structure KbAnswer where
  found : Bool
  answer : String
deriving Repr, DecidableEq

/-- One content item of a thread message; the code reads
`content[0].get("text", {}).get("value", "")` (src/server.py 425). -/
structure KbContent where
  textValue : Option String := none
deriving Repr, DecidableEq

/-- One message returned by the threads/messages endpoint
(src/server.py 420-426). -/
structure KbMsg where
  role : Option String := none
  content : List KbContent := []
deriving Repr, DecidableEq

/-- The OpenAI assistants-API effects `search_knowledge_base` performs, as
oracles. Each HTTP call may raise (`Except.error`); a response carries the
status code and the parsed field the code reads. `pollStatus i` is the run
status string (`.json().get("status")`) observed by the i-th poll. -/
structure KbEnv where
  apiKey : Option String
  createThread : Except Unit (Nat × Option String)
  postMessage : String → Except Unit Unit
  createRun : Except Unit (Nat × Option String)
  pollStatus : Nat → Except Unit (Option String)
  getMessages : Except Unit (List KbMsg)

/-- How the polling for-loop of src/server.py 397-410 ended. -/
inductive PollOutcome
  | completed
  | terminalBad
  | timeout
deriving Repr, DecidableEq

/-- The polling for-loop (src/server.py 397-410): up to `n` further polls
starting at index `i`. `"completed"` breaks out; `"failed"`, `"cancelled"`
or `"expired"` is a terminal failure (the code returns the fallback right
there); any other status polls again; `n` exhausted is the timeout (the
code falls through after the loop). The 1-second sleep between polls is
real time, outside the model. -/
def pollLoop (poll : Nat → Except Unit (Option String)) :
    Nat → Nat → Except Unit PollOutcome
  | 0, _ => return .timeout
  | n + 1, i => do
    let st ← poll i
    if st = some "completed" then return .completed
    else if st = some "failed" ∨ st = some "cancelled" ∨ st = some "expired" then
      return .terminalBad
    else pollLoop poll n (i + 1)

/-- The message scan of src/server.py 421-426: the first assistant message
with non-empty content yields its first content item's text value. -/
def firstAssistantAnswer : List KbMsg → Option String
  | [] => none
  | m :: rest =>
    if m.role = some "assistant" then
      match m.content with
      | [] => firstAssistantAnswer rest
      | c :: _ => some (c.textValue.getD "")
    else firstAssistantAnswer rest

/-- The body of `search_knowledge_base`'s try-block (src/server.py 355-428):
create a thread (non-200 returns a fallback), post the question, create a
run (non-200 returns a fallback), poll the run status, then fetch the
thread's messages and return the first assistant answer, falling back to
the not-found message. Note the code reaches the message fetch on timeout
as well as on completion. -/
def skbTry (env : KbEnv) (question : String) : Except Unit KbAnswer := do
  let (st, _tid) ← env.createThread
  if st ≠ 200 then
    return ⟨false, "I\'m having trouble accessing the knowledge base."⟩
  env.postMessage question
  let (st2, _rid) ← env.createRun
  if st2 ≠ 200 then
    return ⟨false, "I\'m having trouble searching the knowledge base."⟩
  let po ← pollLoop env.pollStatus 30 0
  if po = PollOutcome.terminalBad then
    return ⟨false, "I couldn\'t find that information."⟩
  let msgs ← env.getMessages
  match firstAssistantAnswer msgs with
  | some ans => return ⟨true, ans⟩
  | none => return ⟨false, "I couldn\'t find that information."⟩

/-- `search_knowledge_base` (src/server.py 350-432): a missing API key
yields the unavailable answer; any exception raised inside the try-block
is caught and yields the trouble answer (lines 430-432). -/
def search_knowledge_base (env : KbEnv) (question : String) : KbAnswer :=
  if truthy env.apiKey = false then
    ⟨false, "Knowledge base unavailable."⟩
  else
    match skbTry env question with
    | .ok a => a
    | .error _ => ⟨false, "I\'m having trouble with the knowledge base."⟩

/-- Python `str()` of an optional string as an f-string renders it:
`None` prints as `"None"`. -/
def pyStr : Option String → String
  | none => "None"
  | some s => s

/-- The fixed numbered-steps tail of the prefetch block
(src/server.py 51-55). -/
def prefetchSteps : String :=
  "\nSince we found a record from the caller\'s phone number, when they ask about their application:\n1. Say: \"I see we have a record from this phone number. To verify your identity, could you please confirm your first and last name?\"\n2. If name matches, ask: \"And what language did you apply to interpret for?\"\n3. If language matches, share the status message\n4. If language doesn\'t match, give them another chance: \"Hmm, that doesn\'t seem to match. Could you double-check the language you applied for?\"\n"

/-- The `prefetch_context` block of `get_system_prompt`
(src/server.py 41-56): empty unless a prefetch result with `found=True`
is present; otherwise an f-string embedding the caller id and the
record's `first_name`, `last_name`, `language` and `message` fields. -/
def prefetch_context (caller_phone : Option String) :
    Option LookupResult → String
  | some (.found fn ln _st lang _ts msg) =>
    "\n## PRE-FETCHED CALLER DATA (from Caller ID: " ++ pyStr caller_phone
      ++ ")\nA record was found matching the caller\'s phone number:\n- First Name: "
      ++ fn ++ "\n- Last Name: " ++ ln
      ++ "  \n- Language (SECRET - for verification only): " ++ pyStr lang
      ++ "\n- Status Message: " ++ msg ++ "\n" ++ prefetchSteps
  | _ => ""

/-- The prompt text before the `{prefetch_context}` interpolation point
(src/server.py 58-67). -/
def promptPrefix : String :=
  "You are Angela, a virtual AI assistant for Alfa Systems, a language services company that connects clients with professional interpreters.\n\n## GREETING\nWhen the conversation starts, say: \"Hi, this is Angela, your virtual assistant with Alfa Systems. How may I help you today?\"\n\n## STYLE\n- Speak naturally and conversationally\n- Keep responses to 2-3 sentences\n- Be warm but professional\n- Use the caller\'s first name once you know it\n"

/-- The prompt text after the `{prefetch_context}` interpolation point
(src/server.py 69-120). -/
def promptSuffix : String :=
  "## CAPABILITIES\n- Answer questions about interpreter services\n- Help check application status\n- Explain the assessment and training process\n\n## APPLICATION STATUS LOOKUP FLOW\n\n### Step 1: Collect Information\nWhen someone asks about their application status, collect these details ONE AT A TIME:\n\na) \"May I have your first and last name, please?\"\nb) \"And what\'s the best phone number to reach you?\"\nc) \"And your email address?\"\n\nOnce you have all three, say: \"Thank you! Let me look up your application now.\"\n\nThen call lookup_application_status with ALL the information (phone, email, first_name, last_name).\n\n### Step 2: Phone Number Handling\n- US phone numbers may or may not include country code \"1\"\n- If someone says \"nine five one four four zero nine five six seven\", that\'s 9514409567\n- If they say \"one nine five one...\", include the 1: 19514409567\n\n### Step 3: Handle Lookup Results\n\nIF FOUND - Verify identity first:\n- Ask: \"Thanks [Name]. For security, can you tell me what language you applied to interpret for?\"\n- If they say the correct language, share their status\n- If wrong, say: \"Hmm, that doesn\'t seem to match what I have on file. Could you double-check the language you applied for? If you\'re unsure, I can have someone from our team reach out to help.\"\n\nIF NOT FOUND:\n\"I wasn\'t able to locate your application with that information. Let me connect you with one of our team members who can help, or you can email us and we\'ll look into it right away.\"\n\n## WHAT NOT TO SHARE\n- Never share the full email address back to them\n- Never share internal assessment details or scores\n- Never share tier classifications\n- Only share scheduling info from notes\n\n## GENERAL QUESTIONS\nFor questions about Alfa Systems, training, requirements, pay, or policies:\n- Say: \"Let me look that up for you\"\n- Call the search_knowledge_base function\n- If the answer isn\'t in the knowledge base, say: \"I don\'t have that specific information, but I can have someone from our team follow up with you.\"\n\n## AUDIO ISSUES\n- \"I\'m sorry, I didn\'t catch that. Could you say that again?\"\n- After 2 attempts: \"We\'re having some audio trouble. Let me transfer you to a team member.\"\n\n## LANGUAGE\n- Start in English\n- If caller speaks Spanish, switch to Spanish"

/-- `get_system_prompt` (src/server.py 38-120): the fixed prompt with the
prefetch-context block interpolated between prefix and suffix. -/
def get_system_prompt (caller_phone : Option String)
    (prefetch_result : Option LookupResult) : String :=
  promptPrefix ++ prefetch_context caller_phone prefetch_result
    ++ "\n" ++ promptSuffix

/-- The TwiML document returned by `incoming_call` (src/server.py 500-507),
as the f-string renders it from `ws_url` and `call_sid`. -/
def twiml (ws_url call_sid : String) : String :=
  "<?xml version=\"1.0\" encoding=\"UTF-8\"?>\n<Response>\n    <Connect>\n        <Stream url=\"" ++ ws_url
    ++ "\">\n            <Parameter name=\"callSid\" value=\"" ++ call_sid
    ++ "\"/>\n        </Stream>\n    </Connect>\n</Response>"

/-- The request-dependent inputs of `incoming_call`. `bodyParams` is the
outcome of reading and form-decoding the body (src/server.py 457-465):
`.error` models an exception raised there (caught at lines 473-476), and
the pair carries the `From` and `CallSid` fields, empty string when
absent. The query parameters are the fallback of lines 468-471. -/
structure IncomingRequest where
  bodyParams : Except Unit (String × String)
  queryFrom : String := ""
  queryCallSid : String := ""
  host : String := "localhost"

/-- `incoming_call` (src/server.py 444-509). Exceptions from parsing are
caught, leaving the fields as set so far; the CRM prefetch of line 484 is
NOT inside that try-block, so an exception raised by
`lookup_application_status` propagates out of the handler (`.error`).
On success: the TwiML string and the updated cache. -/
def incoming_call (env : ZohoEnv) (cache : Store) (req : IncomingRequest) :
    Except Unit (String × Store) := do
  let (caller_phone, call_sid) :=
    match req.bodyParams with
    | .ok (p, s) =>
      (if p = "" then req.queryFrom else p,
       if s = "" then req.queryCallSid else s)
    | .error _ => ("", "")
  let mut prefetch_result : Option LookupResult := none
  if caller_phone ≠ "" then
    let r ← lookup_application_status env (some caller_phone) none none none
    prefetch_result := some r
  let cache' :=
    if call_sid ≠ "" then
      Store.put call_sid ⟨caller_phone, prefetch_result⟩ cache
    else cache
  let ws_url := "wss://" ++ req.host ++ "/media-stream"
  return (twiml ws_url call_sid, cache')

/-- Twilio-to-server events, already JSON-decoded, as the
`receive_from_twilio` dispatch reads them (src/server.py 568-612):
`data.get("event")` with `streamSid` from `data["start"]["streamSid"]` and
the call sid from `data["start"].get("customParameters", {}).get("callSid")`
(hence optional). `other` stands for any unmatched event tag. -/
inductive TwEvent
  | connected
  | start (streamSid : String) (callSid : Option String)
  | media (payload : String)
  | stop
  | other
deriving Repr, DecidableEq

/-- The parsed arguments dict of a function call (src/server.py 665-668;
a `json.loads` failure yields the empty dict, i.e. all fields `none`). -/
structure ToolArgs where
  phone : Option String := none
  email : Option String := none
  first_name : Option String := none
  last_name : Option String := none
  question : Option String := none
deriving Repr, DecidableEq

/-- OpenAI-to-server events as the `receive_from_openai` dispatch reads
them (src/server.py 620-699). -/
inductive OAEvent
  | sessionCreated
  | sessionUpdated
  | audioDelta (delta : String)
  | transcriptDelta (delta : String)
  | transcriptDone
  | speechStarted
  | speechStopped
  | inputTranscript (transcript : String)
  | fcDone (callId : Option String) (name : Option String) (args : ToolArgs)
  | errorEvt
  | responseDone
  | unknown
deriving Repr, DecidableEq

/-- The tool result serialized into the function_call_output's `output`
field (`json.dumps(result)`, src/server.py 689): a lookup result, a
knowledge-base answer, or the `{"error": f"Unknown function: {name}"}`
dict of line 680. -/
inductive ToolOutput
  | lookupOut (r : LookupResult)
  | kbOut (a : KbAnswer)
  | unknownTool (message : String)
deriving Repr, DecidableEq

/-- Messages the server sends on the OpenAI realtime socket:
`session.update` (src/server.py 547-561), `response.create` (with the
modalities body for the greeting trigger at 597-600, bare at 693),
`input_audio_buffer.append` (605-608), and `conversation.item.create`
carrying a function_call_output (684-691). -/
inductive OAMsg
  | sessionUpdate (instructions : String)
  | responseCreate (withModalities : Bool)
  | audioAppend (audio : String)
  | itemCreate (callId : Option String) (output : ToolOutput)
deriving Repr, DecidableEq

/-- Messages the server sends back on the Twilio socket
(src/server.py 634-638). -/
inductive TwMsg
  | mediaOut (streamSid : String) (payload : String)
deriving Repr, DecidableEq

/-- The per-call mutable state the two loops share through `nonlocal`
(src/server.py 525-529), plus the process-wide cache. -/
structure TwState where
  cache : Store
  stream_sid : Option String := none
  call_sid : Option String := none
  caller_phone : Option String := none
  prefetch_result : Option LookupResult := none

/-- One iteration of the `receive_from_twilio` dispatch
(src/server.py 570-612): the updated state, the messages sent to the
OpenAI socket, and whether the loop breaks (`stop`). The `start` branch
records the stream and call sids, consumes the cache entry if the call
sid is truthy and present (585-591), then sends the session configuration
(`configure_session`, 543-562, via `get_system_prompt`) followed by the
greeting trigger (597-600). -/
def twHandle (s : TwState) : TwEvent → TwState × List OAMsg × Bool
  | .connected => (s, [], false)
  | .start ssid cps =>
    let s1 := { s with stream_sid := some ssid, call_sid := cps }
    let s2 :=
      if truthy cps then
        match Store.takeIfPresent (cps.getD "") s1.cache with
        | (some info, cache') =>
          { s1 with cache := cache', caller_phone := some info.phone,
                    prefetch_result := info.prefetch_result }
        | (none, _) => s1
      else s1
    (s2, [OAMsg.sessionUpdate (get_system_prompt s2.caller_phone s2.prefetch_result),
          OAMsg.responseCreate true], false)
  | .media p => (s, [OAMsg.audioAppend p], false)
  | .stop => (s, [], true)
  | .other => (s, [], false)

/-- The `receive_from_twilio` loop (src/server.py 564-615) run over a list
of inbound events: fold `twHandle` until the list ends (connection closed)
or a `stop` event breaks the loop. Returns the final state and every
message sent to OpenAI, in order. -/
def twRun (s : TwState) : List TwEvent → TwState × List OAMsg
  | [] => (s, [])
  | e :: rest =>
    let (s', msgs, brk) := twHandle s e
    if brk then (s', msgs)
    else
      let (s'', more) := twRun s' rest
      (s'', msgs ++ more)

/-- The tool dispatch of the fcDone branch (src/server.py 670-680): the
two known tool names invoke the matching lookup; any other name builds
the `{"error": f"Unknown function: {name}"}` result. A raised exception
inside `lookup_application_status` propagates (`.error`). -/
def dispatchTool (env : ZohoEnv) (kb : KbEnv) (name : Option String)
    (args : ToolArgs) : Except Unit ToolOutput :=
  if name = some "lookup_application_status" then do
    let r ← lookup_application_status env args.phone args.email
      args.first_name args.last_name
    return .lookupOut r
  else if name = some "search_knowledge_base" then
    return .kbOut (search_knowledge_base kb (args.question.getD ""))
  else
    return .unknownTool ("Unknown function: " ++ pyStr name)

/-- One iteration of the `receive_from_openai` dispatch
(src/server.py 620-699): the messages sent to each socket. An audio delta
is forwarded to Twilio only when `stream_sid` is truthy (631-638); a
function call dispatches the tool, replies with exactly one
`conversation.item.create`/function_call_output correlated by the same
`call_id`, then a bare `response.create` (658-693). `.error` models an
exception escaping the branch, which the except of line 701 turns into
loop termination. All other events only log. -/
def oaHandle (env : ZohoEnv) (kb : KbEnv) (stream_sid : Option String) :
    OAEvent → Except Unit (List OAMsg × List TwMsg)
  | .audioDelta d =>
    if truthy stream_sid then
      return ([], [TwMsg.mediaOut (stream_sid.getD "") d])
    else
      return ([], [])
  | .fcDone cid name args => do
    let result ← dispatchTool env kb name args
    return ([OAMsg.itemCreate cid result, OAMsg.responseCreate false], [])
  | _ => return ([], [])

/-- Which relay loop the cooperative scheduler lets take the next step
(asyncio interleaves the two coroutines of src/server.py 705-708). -/
inductive Side
  | tw
  | oa
deriving Repr, DecidableEq

/-- The joint state of one `media_stream` call (src/server.py 512-717):
the pending inbound events on each socket, whether each relay loop has
terminated, the shared per-call state, the outbound message logs, and how
many times the finally-block has called close on the OpenAI connection. -/
structure BridgeState where
  twPending : List TwEvent
  oaPending : List OAEvent
  twDone : Bool := false
  oaDone : Bool := false
  st : TwState
  toOpenAI : List OAMsg := []
  toTwilio : List TwMsg := []
  closeCount : Nat := 0

/-- One cooperative step: the scheduled side, unless already terminated,
processes its next pending event. An exhausted event list models that
socket's iterator ending (connection closed); a `stop` event breaks the
Twilio loop (src/server.py 610-612); an exception escaping the OpenAI
branch terminates that loop (the except of line 701). A step scheduled
for a terminated loop does nothing. -/
def bridgeStep (env : ZohoEnv) (kb : KbEnv) (side : Side) (b : BridgeState) :
    BridgeState :=
  match side with
  | .tw =>
    if b.twDone then b
    else
      match b.twPending with
      | [] => { b with twDone := true }
      | e :: rest =>
        let (s', msgs, brk) := twHandle b.st e
        { b with twPending := rest, st := s', twDone := brk,
                 toOpenAI := b.toOpenAI ++ msgs }
  | .oa =>
    if b.oaDone then b
    else
      match b.oaPending with
      | [] => { b with oaDone := true }
      | e :: rest =>
        match oaHandle env kb b.st.stream_sid e with
        | .ok (oam, twm) =>
          { b with oaPending := rest,
                   toOpenAI := b.toOpenAI ++ oam,
                   toTwilio := b.toTwilio ++ twm }
        | .error _ => { b with oaPending := rest, oaDone := true }

/-- Run a schedule of cooperative steps over the gathered loops. -/
def bridgeRun (env : ZohoEnv) (kb : KbEnv) :
    List Side → BridgeState → BridgeState
  | [], b => b
  | sd :: rest, b => bridgeRun env kb rest (bridgeStep env kb sd b)

/-- The finally-block of `media_stream` (src/server.py 714-717): it runs
once `asyncio.gather` has returned, i.e. once BOTH loops have terminated,
and then calls close on the OpenAI connection (the library's close is a
no-op on an already-closed connection; the count records the calls made
by this per-call handler). -/
def finallyClose (b : BridgeState) : BridgeState :=
  if b.twDone && b.oaDone then { b with closeCount := b.closeCount + 1 }
  else b

/-- A full `media_stream` call under a given schedule: run the scheduled
steps; when they have driven both loops to termination, the finally-block
closes the session. -/
def mediaStreamRun (env : ZohoEnv) (kb : KbEnv) (sched : List Side)
    (b : BridgeState) : BridgeState :=
  finallyClose (bridgeRun env kb sched b)

/-- The payloads of the media events the Twilio loop actually consumes:
those before the first `stop`. -/
def mediaPayloadsUntilStop : List TwEvent → List String
  | [] => []
  | .stop :: _ => []
  | .media p :: rest => p :: mediaPayloadsUntilStop rest
  | _ :: rest => mediaPayloadsUntilStop rest

/-- The audio payloads carried by the `input_audio_buffer.append` messages
of an outbound message list, in order. -/
def appendedAudio : List OAMsg → List String
  | [] => []
  | .audioAppend a :: rest => a :: appendedAudio rest
  | _ :: rest => appendedAudio rest

/-- How many `session.update` messages an outbound list carries. -/
def countSessionUpdate : List OAMsg → Nat
  | [] => 0
  | .sessionUpdate _ :: rest => 1 + countSessionUpdate rest
  | _ :: rest => countSessionUpdate rest

/-- How many greeting triggers (`response.create` with the modalities
body, src/server.py 597-600) an outbound list carries. -/
def countGreeting : List OAMsg → Nat
  | [] => 0
  | .responseCreate true :: rest => 1 + countGreeting rest
  | _ :: rest => countGreeting rest

/-- How many `function_call_output` items an outbound list carries for a
given provider call id. -/
def countItemCreate (cid : Option String) : List OAMsg → Nat
  | [] => 0
  | .itemCreate c _ :: rest =>
    (if c = cid then 1 else 0) + countItemCreate cid rest
  | _ :: rest => countItemCreate cid rest

/-- The number of `start` events the Twilio loop processes (those before
the first `stop`). -/
def countStartsProcessed : List TwEvent → Nat
  | [] => 0
  | .stop :: _ => 0
  | .start _ _ :: rest => 1 + countStartsProcessed rest
  | _ :: rest => countStartsProcessed rest

/-- A Zoho environment with no credentials: every search returns no
contact and nothing raises. Used to instantiate theorems on concrete
inputs. -/
def trivialZoho : ZohoEnv where
  token := .ok none
  phoneQuery := fun _ => .ok none
  emailQuery := fun _ => .ok none
  nameQuery := fun _ _ => .ok []

/-- A Zoho environment whose token request raises (httpx network error in
`get_zoho_access_token`). -/
def errZoho : ZohoEnv where
  token := .error ()
  phoneQuery := fun _ => .ok none
  emailQuery := fun _ => .ok none
  nameQuery := fun _ _ => .ok []

/-- A knowledge-base environment with no API key configured. -/
def trivialKb : KbEnv where
  apiKey := none
  createThread := .ok (200, some "thread_1")
  postMessage := fun _ => .ok ()
  createRun := .ok (200, some "run_1")
  pollStatus := fun _ => .ok (some "completed")
  getMessages := .ok []

/-- A knowledge-base environment whose run status never becomes terminal,
yet whose final message fetch does return an assistant answer. -/
def kbTimeoutEnv : KbEnv where
  apiKey := some "sk-test"
  createThread := .ok (200, some "thread_1")
  postMessage := fun _ => .ok ()
  createRun := .ok (200, some "run_1")
  pollStatus := fun _ => .ok (some "in_progress")
  getMessages := .ok [{ role := some "assistant",
                        content := [{ textValue := some "Office hours are 9 to 5." }] }]

/-! ## Store lemmas -/

theorem countKey_eraseKey_self (k : String) (s : Store) :
    Store.countKey k (Store.eraseKey k s) = 0 := by
  induction s with
  | nil => rfl
  | cons e t ih =>
    by_cases h : e.1 = k <;>
      simp [Store.countKey, Store.eraseKey, List.filter, h] at ih ⊢

theorem lookup_eraseKey_self (k : String) (s : Store) :
    Store.lookup k (Store.eraseKey k s) = none := by
  induction s with
  | nil => rfl
  | cons e t ih =>
    by_cases h : e.1 = k <;>
      simp [Store.lookup, Store.eraseKey, List.filter, List.find?, h] at ih ⊢

theorem countKey_eraseKey_le (k0 k : String) (s : Store) :
    Store.countKey k0 (Store.eraseKey k s) ≤ Store.countKey k0 s := by
  have hsub : List.Sublist (Store.eraseKey k s) s := List.filter_sublist s
  have h2 := List.Sublist.length_le
    (List.Sublist.filter (fun e => decide (e.1 = k0)) hsub)
  simpa [Store.countKey] using h2

theorem countKey_put_self (k : String) (v : CallerInfo) (s : Store) :
    Store.countKey k (Store.put k v s) = 1 := by
  have h0 := countKey_eraseKey_self k s
  simp [Store.countKey, Store.put, List.filter] at h0 ⊢
  simpa [Store.countKey] using h0

theorem take_put_fst (k : String) (v : CallerInfo) (s : Store) :
    (Store.takeIfPresent k (Store.put k v s)).1 = some v := by
  simp [Store.takeIfPresent, Store.put, Store.lookup, List.find?]

theorem take_put_snd (k : String) (v : CallerInfo) (s : Store) :
    (Store.takeIfPresent k (Store.put k v s)).2 = Store.eraseKey k s := by
  simp [Store.takeIfPresent, Store.put, Store.lookup, List.find?,
    Store.eraseKey, List.filter]

theorem take_take_none (k : String) (v : CallerInfo) (s : Store) :
    (Store.takeIfPresent k ((Store.takeIfPresent k (Store.put k v s)).2)).1
      = none := by
  rw [take_put_snd]
  simp [Store.takeIfPresent, lookup_eraseKey_self]

theorem countKey_put_le (k0 k : String) (v : CallerInfo) (s : Store)
    (h : Store.countKey k0 s ≤ 1) :
    Store.countKey k0 (Store.put k v s) ≤ 1 := by
  by_cases hk : k0 = k
  · subst hk; simp [countKey_put_self]
  · have := countKey_eraseKey_le k0 k s
    simp [Store.countKey, Store.put, List.filter, Ne.symm hk] at *
    omega

theorem countKey_take_le (k0 k : String) (s : Store)
    (h : Store.countKey k0 s ≤ 1) :
    Store.countKey k0 ((Store.takeIfPresent k s).2) ≤ 1 := by
  unfold Store.takeIfPresent
  cases Store.lookup k s with
  | none => simpa using h
  | some v => simpa using le_trans (countKey_eraseKey_le k0 k s) h

/-- C1: for every call identifier, a context stored by the inbound
notification handler (`Store.put` at src/server.py 491-495) is retrieved
by the streaming phase's take (src/server.py 585-591) exactly once: the
first take returns the stored context and removes the entry, a second
take for the same identifier returns absent, a put leaves exactly one
entry for its key, and the at-most-one-entry-per-key property of the
cache is preserved by both put and take. -/
theorem c1_context_taken_exactly_once (s : Store) (k : String) (v : CallerInfo) :
    (Store.takeIfPresent k (Store.put k v s)).1 = some v ∧
    (Store.takeIfPresent k ((Store.takeIfPresent k (Store.put k v s)).2)).1
      = none ∧
    Store.countKey k (Store.put k v s) = 1 ∧
    (∀ k0, Store.countKey k0 s ≤ 1 →
      Store.countKey k0 (Store.put k v s) ≤ 1 ∧
      Store.countKey k0 ((Store.takeIfPresent k0 s).2) ≤ 1) :=
  ⟨take_put_fst k v s, take_take_none k v s, countKey_put_self k v s,
   fun k0 h => ⟨countKey_put_le k0 k v s h, countKey_take_le k0 k0 s h⟩⟩

/-- Witness for C1 at a concrete call: storing the context for `CA123`
and taking it back, on the empty cache. -/
theorem c1_context_taken_exactly_once_witness :
    (Store.takeIfPresent "CA123"
        (Store.put "CA123" ⟨"9514409567", none⟩ [])).1
      = some ⟨"9514409567", none⟩ ∧
    Store.countKey "CA123" (Store.put "CA123" ⟨"9514409567", none⟩ []) ≤ 1 :=
  ⟨(c1_context_taken_exactly_once [] "CA123" ⟨"9514409567", none⟩).1,
   ((c1_context_taken_exactly_once [] "CA123" ⟨"9514409567", none⟩).2.2.2
      "CA123" (by decide)).1⟩

/-! ## Audio forwarding (C9) -/

theorem appendedAudio_append (xs ys : List OAMsg) :
    appendedAudio (xs ++ ys) = appendedAudio xs ++ appendedAudio ys := by
  induction xs with
  | nil => rfl
  | cons x t ih => cases x <;> simp [appendedAudio, ih]

theorem twRun_appendedAudio (evs : List TwEvent) (s : TwState) :
    appendedAudio (twRun s evs).2 = mediaPayloadsUntilStop evs := by
  induction evs generalizing s with
  | nil => rfl
  | cons e rest ih =>
    cases e <;>
      simp [twRun, twHandle, appendedAudio, appendedAudio_append,
        mediaPayloadsUntilStop, ih]

theorem mediaPayloads_map (ps : List String) :
    mediaPayloadsUntilStop (ps.map TwEvent.media) = ps := by
  induction ps with
  | nil => rfl
  | cons p t ih => simp [mediaPayloadsUntilStop, ih]

/-- C9: the Transport-to-AI loop forwards each media payload to the AI
session as an `input_audio_buffer.append` message in arrival order, with
no batching, dropping, or reordering: a run over media frames `ps`
appends exactly `ps`, and over any event list the appended audio is
exactly the media payloads the loop consumes, in order. -/
theorem c9_media_in_order (s : TwState) (ps : List String) :
    appendedAudio (twRun s (ps.map TwEvent.media)).2 = ps ∧
    ∀ evs, appendedAudio (twRun s evs).2 = mediaPayloadsUntilStop evs :=
  ⟨by rw [twRun_appendedAudio, mediaPayloads_map],
   fun evs => twRun_appendedAudio evs s⟩

/-! ## Phone-key normalization (C10) -/

/-- C10: the CRM phone-search query key is the sanitized last-10-digits
string, so two inputs agreeing on their final 10 digits produce the
identical query key, and `search_by_phone` behaves identically on them
in every environment. -/
theorem c10_phone_key_normalization (a b : String)
    (h : lastTen (digitsOnly a) = lastTen (digitsOnly b)) :
    phoneKey a = phoneKey b ∧
    ∀ env : ZohoEnv, search_by_phone env a = search_by_phone env b := by
  have hk : phoneKey a = phoneKey b := by unfold phoneKey; rw [h]
  exact ⟨hk, fun env => by simp only [search_by_phone, hk]⟩

/-- Witness for C10: the same US number with and without the country
code 1, and with punctuation, yields the identical query key. -/
theorem c10_phone_key_normalization_witness :
    lastTen (digitsOnly "19514409567") = lastTen (digitsOnly "(951) 440-9567") ∧
    phoneKey "19514409567" = phoneKey "(951) 440-9567" :=
  ⟨rfl, (c10_phone_key_normalization "19514409567" "(951) 440-9567" rfl).1⟩

/-! ## Lookup priority (C4) and name ambiguity (C7) -/

theorem lookup_phone_wins (t : Except Unit (Option String))
    (pq eqq nqq : String → Except Unit (Option Record))
    (nq nq2 : String → String → Except Unit (List Record))
    (p e f l : Option String) (r : Record)
    (hp : truthy p)
    (hr : search_by_phone ⟨t, pq, eqq, nq⟩ (p.getD "") = .ok (some r)) :
    lookup_application_status ⟨t, pq, nqq, nq2⟩ p e f l
      = .ok (statusObject r) := by
  have hr' : search_by_phone ⟨t, pq, nqq, nq2⟩ (p.getD "") = .ok (some r) := hr
  simp [lookup_application_status, hp, hr', bind, Except.bind, pure, Except.pure]

theorem lookup_email_fallback (t : Except Unit (Option String))
    (pq eqq : String → Except Unit (Option Record))
    (nq nq2 : String → String → Except Unit (List Record))
    (p e f l : Option String) (r : Record)
    (hp : truthy p = false
      ∨ search_by_phone ⟨t, pq, eqq, nq⟩ (p.getD "") = .ok none)
    (he : truthy e)
    (hr : search_by_email ⟨t, pq, eqq, nq⟩ (e.getD "") = .ok (some r)) :
    lookup_application_status ⟨t, pq, eqq, nq2⟩ p e f l
      = .ok (statusObject r) := by
  have hr' : search_by_email ⟨t, pq, eqq, nq2⟩ (e.getD "") = .ok (some r) := hr
  rcases hp with hp | hp
  · simp [lookup_application_status, hp, he, hr', bind, Except.bind,
      pure, Except.pure]
  · have hp' : search_by_phone ⟨t, pq, eqq, nq2⟩ (p.getD "") = .ok none := hp
    by_cases hp1 : truthy p <;>
      simp [lookup_application_status, hp1, hp', he, hr', bind, Except.bind,
        pure, Except.pure]

theorem lookup_all_miss (env : ZohoEnv) (p e f l : Option String)
    (hp : truthy p → search_by_phone env (p.getD "") = .ok none)
    (he : truthy e → search_by_email env (e.getD "") = .ok none)
    (hn : truthy f → truthy l →
      search_by_name env (f.getD "") (l.getD "") = .ok .noMatch) :
    lookup_application_status env p e f l
      = .ok (.notFound "I couldn\'t find a record with that information.") := by
  by_cases hp1 : truthy p <;> by_cases he1 : truthy e <;>
    by_cases hf1 : truthy f <;> by_cases hl1 : truthy l <;>
    simp [lookup_application_status, hp1, he1, hf1, hl1,
      hp, he, hn, bind, Except.bind, pure, Except.pure]

theorem lookup_name_ambiguous (env : ZohoEnv) (p e f l : Option String)
    (n : Nat)
    (hp : truthy p → search_by_phone env (p.getD "") = .ok none)
    (he : truthy e → search_by_email env (e.getD "") = .ok none)
    (hf : truthy f) (hl : truthy l)
    (hn : search_by_name env (f.getD "") (l.getD "")
      = .ok (.multipleMatches n)) :
    lookup_application_status env p e f l
      = .ok (.notFound "Multiple candidates found with that name. Please provide your phone number or email.") := by
  by_cases hp1 : truthy p <;> by_cases he1 : truthy e <;>
    simp [lookup_application_status, hp1, he1, hf, hl,
      hp, he, hn, bind, Except.bind, pure, Except.pure]

theorem search_by_name_multiple (t : Except Unit (Option String)) (tk : String)
    (pq eqq : String → Except Unit (Option Record))
    (nq : String → String → Except Unit (List Record))
    (f l : String) (rows : List Record)
    (ht : t = .ok (some tk))
    (hq : nq (sanitize_coql_input f) (sanitize_coql_input l) = .ok rows)
    (h2 : 2 ≤ rows.length) :
    search_by_name ⟨t, pq, eqq, nq⟩ f l
      = .ok (.multipleMatches rows.length) := by
  subst ht
  match rows, h2 with
  | r1 :: r2 :: rest, _ =>
    simp [search_by_name, hq, bind, Except.bind, pure, Except.pure]

/-- C4: `lookup_application_status` tries phone, then email, then
first+last name, in that order, stopping at the first match. Part one: a
phone hit yields that record's status object whatever the email and name
oracles are (so they are never consulted and a phone match beats an email
match). Part two: the email search decides the result only when the phone
key was absent or found nothing, whatever the name oracle is. Part three:
when every supplied key finds nothing, the not-found object with its
human-readable message is returned. -/
theorem c4_lookup_priority_order (t : Except Unit (Option String))
    (pq eqq eqq2 : String → Except Unit (Option Record))
    (nq nq2 : String → String → Except Unit (List Record))
    (p e f l : Option String) (r : Record) :
    (truthy p → search_by_phone ⟨t, pq, eqq, nq⟩ (p.getD "") = .ok (some r) →
      lookup_application_status ⟨t, pq, eqq2, nq2⟩ p e f l
        = .ok (statusObject r)) ∧
    ((truthy p = false
        ∨ search_by_phone ⟨t, pq, eqq, nq⟩ (p.getD "") = .ok none) →
      truthy e → search_by_email ⟨t, pq, eqq, nq⟩ (e.getD "") = .ok (some r) →
      lookup_application_status ⟨t, pq, eqq, nq2⟩ p e f l
        = .ok (statusObject r)) ∧
    ((truthy p → search_by_phone ⟨t, pq, eqq, nq⟩ (p.getD "") = .ok none) →
      (truthy e → search_by_email ⟨t, pq, eqq, nq⟩ (e.getD "") = .ok none) →
      (truthy f → truthy l →
        search_by_name ⟨t, pq, eqq, nq⟩ (f.getD "") (l.getD "")
          = .ok .noMatch) →
      lookup_application_status ⟨t, pq, eqq, nq⟩ p e f l
        = .ok (.notFound "I couldn\'t find a record with that information.")) :=
  ⟨fun hp hr => lookup_phone_wins t pq eqq eqq2 nq nq2 p e f l r hp hr,
   fun hp he hr => lookup_email_fallback t pq eqq nq nq2 p e f l r hp he hr,
   fun hp he hn => lookup_all_miss ⟨t, pq, eqq, nq⟩ p e f l hp he hn⟩

/-- A record matched by phone in the witness scenarios. -/
def mariaRecord : Record :=
  { First_Name := some "Maria", Last_Name := some "Santos",
    Lead_Status := some "Qualified", Language := some "Portuguese" }

/-- A different record matched by email in the witness scenarios. -/
def emilRecord : Record :=
  { First_Name := some "Emil", Last_Name := some "Sousa",
    Lead_Status := some "Contacted" }

/-- Witness for C4: with records matching on both phone and email, the
phone match wins. -/
theorem c4_lookup_priority_order_witness :
    lookup_application_status
      ⟨.ok (some "tk"), fun _ => .ok (some mariaRecord),
       fun _ => .ok (some emilRecord), fun _ _ => .ok []⟩
      (some "9514409567") (some "maria@example.com") none none
      = .ok (statusObject mariaRecord) :=
  (c4_lookup_priority_order (.ok (some "tk")) (fun _ => .ok (some mariaRecord))
    (fun _ => .ok (some emilRecord)) (fun _ => .ok (some emilRecord))
    (fun _ _ => .ok []) (fun _ _ => .ok [])
    (some "9514409567") (some "maria@example.com") none none
    mariaRecord).1 rfl rfl

/-- C7: a name search matching more than one record makes
`lookup_application_status` return the distinct ambiguous shape
(`found=False` with the multiple-candidates message), never the status
object of any of the matching records. -/
theorem c7_name_ambiguity (t : Except Unit (Option String)) (tk : String)
    (pq eqq : String → Except Unit (Option Record))
    (nq : String → String → Except Unit (List Record))
    (p e f l : Option String) (rows : List Record)
    (hp : truthy p → search_by_phone ⟨t, pq, eqq, nq⟩ (p.getD "") = .ok none)
    (he : truthy e → search_by_email ⟨t, pq, eqq, nq⟩ (e.getD "") = .ok none)
    (hf : truthy f) (hl : truthy l)
    (ht : t = .ok (some tk))
    (hq : nq (sanitize_coql_input (f.getD "")) (sanitize_coql_input (l.getD ""))
      = .ok rows)
    (h2 : 2 ≤ rows.length) :
    lookup_application_status ⟨t, pq, eqq, nq⟩ p e f l
      = .ok (.notFound "Multiple candidates found with that name. Please provide your phone number or email.") ∧
    ∀ r : Record, lookup_application_status ⟨t, pq, eqq, nq⟩ p e f l
      ≠ .ok (statusObject r) := by
  have hn := search_by_name_multiple t tk pq eqq nq (f.getD "") (l.getD "")
    rows ht hq h2
  have hmain := lookup_name_ambiguous ⟨t, pq, eqq, nq⟩ p e f l rows.length
    hp he hf hl hn
  exact ⟨hmain, fun r => by simp [hmain, statusObject]⟩

/-- Witness for C7: two records named Maria Santos make the lookup return
the ambiguous shape. -/
theorem c7_name_ambiguity_witness :
    lookup_application_status
      ⟨.ok (some "tk"), fun _ => .ok none, fun _ => .ok none,
       fun _ _ => .ok [mariaRecord, { mariaRecord with Language := some "Spanish" }]⟩
      none none (some "Maria") (some "Santos")
      = .ok (.notFound "Multiple candidates found with that name. Please provide your phone number or email.") :=
  (c7_name_ambiguity (.ok (some "tk")) "tk" (fun _ => .ok none)
    (fun _ => .ok none)
    (fun _ _ => .ok [mariaRecord, { mariaRecord with Language := some "Spanish" }])
    none none (some "Maria") (some "Santos")
    [mariaRecord, { mariaRecord with Language := some "Spanish" }]
    (fun h => absurd h (by decide)) (fun h => absurd h (by decide))
    rfl rfl rfl rfl (by decide)).1

/-! ## Knowledge-base polling (C6) -/

/-- A run status on which the polling loop keeps going: neither completed
nor one of the terminal failure statuses of src/server.py 407-409. -/
def nonTerminal (s : Option String) : Prop :=
  s ≠ some "completed" ∧ s ≠ some "failed"
    ∧ s ≠ some "cancelled" ∧ s ≠ some "expired"

theorem pollLoop_congr (p1 p2 : Nat → Except Unit (Option String)) :
    ∀ n i, (∀ j, j < i + n → p1 j = p2 j) →
      pollLoop p1 n i = pollLoop p2 n i := by
  intro n
  induction n with
  | zero => intro i _; rfl
  | succ m ih =>
    intro i h
    simp only [pollLoop]
    rw [h i (by omega)]
    cases p2 i with
    | error e => simp [bind, Except.bind]
    | ok st =>
      simp only [bind, Except.bind]
      split
      · rfl
      · split
        · rfl
        · exact ih (i + 1) (fun j hj => h j (by omega))

theorem pollLoop_timeout (p : Nat → Except Unit (Option String)) :
    ∀ n i, (∀ j, j < i + n → ∃ s, p j = .ok s ∧ nonTerminal s) →
      pollLoop p n i = .ok .timeout := by
  intro n
  induction n with
  | zero => intro i _; rfl
  | succ m ih =>
    intro i h
    obtain ⟨s, hs, h1, h2, h3, h4⟩ := h i (by omega)
    simp [pollLoop, hs, bind, Except.bind, h1, h2, h3, h4]
    exact ih (i + 1) (fun j hj => h j (by omega))

theorem skb_timeout_fallback (env : KbEnv) (q : String)
    (tid rid : Option String) (msgs : List KbMsg)
    (hkey : truthy env.apiKey)
    (hth : env.createThread = .ok (200, tid))
    (hpm : env.postMessage q = .ok ())
    (hrun : env.createRun = .ok (200, rid))
    (hpoll : ∀ j, j < 30 → ∃ s, env.pollStatus j = .ok s ∧ nonTerminal s)
    (hmsgs : env.getMessages = .ok msgs)
    (hans : firstAssistantAnswer msgs = none) :
    search_knowledge_base env q
      = ⟨false, "I couldn\'t find that information."⟩ := by
  have hp := pollLoop_timeout env.pollStatus 30 0 (fun j hj => hpoll j (by omega))
  simp [search_knowledge_base, hkey, skbTry, hth, hpm, hrun, hp, hmsgs, hans,
    bind, Except.bind, pure, Except.pure]

/-- C6 (amended): the run-status polling is bounded by 30 attempts — the
result depends only on the first 30 poll responses — and a run that never
reaches a terminal status makes the function fall through to the final
message fetch: it returns the fallback not-found answer when no assistant
answer is present there (and the assistant's answer when one is, see the
counterexample). A raised provider call yields the trouble fallback, and
a missing API key the unavailable fallback. The fixed 1-second sleep
between polls is real time, outside the model. -/
theorem c6_poll_bound_and_fallbacks (env : KbEnv) (q : String)
    (p1 p2 : Nat → Except Unit (Option String))
    (tid rid : Option String) (msgs : List KbMsg) :
    ((∀ j, j < 30 → p1 j = p2 j) →
      search_knowledge_base { env with pollStatus := p1 } q
        = search_knowledge_base { env with pollStatus := p2 } q) ∧
    (truthy env.apiKey →
      env.createThread = .ok (200, tid) →
      env.postMessage q = .ok () →
      env.createRun = .ok (200, rid) →
      (∀ j, j < 30 → ∃ s, env.pollStatus j = .ok s ∧ nonTerminal s) →
      env.getMessages = .ok msgs →
      firstAssistantAnswer msgs = none →
      search_knowledge_base env q
        = ⟨false, "I couldn\'t find that information."⟩) ∧
    (truthy env.apiKey → env.createThread = .error () →
      search_knowledge_base env q
        = ⟨false, "I\'m having trouble with the knowledge base."⟩) ∧
    (truthy env.apiKey = false →
      search_knowledge_base env q = ⟨false, "Knowledge base unavailable."⟩) := by
  refine ⟨fun h => ?_, fun hkey hth hpm hrun hpoll hmsgs hans =>
    skb_timeout_fallback env q tid rid msgs hkey hth hpm hrun hpoll hmsgs hans,
    fun hkey hth => ?_, fun hkey => ?_⟩
  · have hp := pollLoop_congr p1 p2 30 0 (fun j hj => h j (by omega))
    simp only [search_knowledge_base, skbTry, hp]
  · simp [search_knowledge_base, hkey, skbTry, hth, bind, Except.bind]
  · simp [search_knowledge_base, hkey]

/-- A knowledge-base environment whose run status never becomes terminal
and whose message fetch holds no assistant answer. -/
def kbStuckEnv : KbEnv :=
  { kbTimeoutEnv with getMessages := .ok [] }

/-- Witness for C6 at a concrete environment: a never-terminal run with
no assistant message yields the fallback answer. -/
theorem c6_poll_bound_and_fallbacks_witness :
    search_knowledge_base kbStuckEnv "What are the office hours?"
      = ⟨false, "I couldn\'t find that information."⟩ :=
  (c6_poll_bound_and_fallbacks kbStuckEnv "What are the office hours?"
    kbStuckEnv.pollStatus kbStuckEnv.pollStatus (some "thread_1")
    (some "run_1") []).2.1 rfl rfl rfl rfl
    (fun j _ => ⟨some "in_progress", rfl, by decide, by decide, by decide,
      by decide⟩) rfl rfl

/-- C6 counterexample: on `kbTimeoutEnv` the run status is
`"in_progress"` at every poll (never terminal), yet the function returns
a found answer taken from the final message fetch, not the fallback
"couldn't find that" answer the claim requires on timeout. -/
theorem c6_timeout_found_counterexample :
    search_knowledge_base kbTimeoutEnv "What are the office hours?"
      = ⟨true, "Office hours are 9 to 5."⟩ ∧
    search_knowledge_base kbTimeoutEnv "What are the office hours?"
      ≠ ⟨false, "I couldn\'t find that information."⟩ :=
  ⟨rfl, by decide⟩

/-! ## Incoming-call error handling (C3) -/

/-- C3 (amended): an exception during request parsing is caught and the
handler still returns the TwiML connection instructions (with empty
fields); and whenever the CRM prefetch lookup returns without raising —
or no caller phone is available, so no lookup runs — the TwiML is
returned. An exception raised by the prefetch lookup itself, however, is
NOT caught (the lookup at src/server.py 484 sits outside the try-block)
and prevents the TwiML response: see the counterexample. -/
theorem c3_parse_caught_prefetch_not (env : ZohoEnv) (cache : Store)
    (p s qf qcs host : String) (r : LookupResult) :
    (incoming_call env cache ⟨.error (), qf, qcs, host⟩
      = .ok (twiml ("wss://" ++ host ++ "/media-stream") "", cache)) ∧
    (p ≠ "" → lookup_application_status env (some p) none none none = .ok r →
      incoming_call env cache ⟨.ok (p, s), qf, qcs, host⟩
        = .ok (twiml ("wss://" ++ host ++ "/media-stream")
                (if s = "" then qcs else s),
            if (if s = "" then qcs else s) ≠ ""
            then Store.put (if s = "" then qcs else s) ⟨p, some r⟩ cache
            else cache)) ∧
    (incoming_call env cache ⟨.ok ("", s), "", qcs, host⟩
      = .ok (twiml ("wss://" ++ host ++ "/media-stream")
              (if s = "" then qcs else s),
          if (if s = "" then qcs else s) ≠ ""
          then Store.put (if s = "" then qcs else s) ⟨"", none⟩ cache
          else cache)) := by
  refine ⟨rfl, fun hp hl => ?_, ?_⟩
  · simp [incoming_call, hp, hl, bind, Except.bind, pure, Except.pure]
  · simp [incoming_call, bind, Except.bind, pure, Except.pure]

/-- Witness for C3: a parsed request whose prefetch lookup returns
normally (no credentials configured, so the lookup finds nothing) still
yields the TwiML response and caches the context under the call sid. -/
theorem c3_parse_caught_prefetch_not_witness :
    incoming_call trivialZoho [] ⟨.ok ("9514409567", "CA123"), "", "", "example.com"⟩
      = .ok (twiml "wss://example.com/media-stream" "CA123",
          Store.put "CA123"
            ⟨"9514409567",
             some (.notFound "I couldn\'t find a record with that information.")⟩
            []) :=
  (c3_parse_caught_prefetch_not trivialZoho [] "9514409567" "CA123" "" ""
    "example.com"
    (.notFound "I couldn\'t find a record with that information.")).2.1
    (by decide) rfl

/-- C3 counterexample: a request parsed successfully whose CRM prefetch
raises (network exception in the token request) makes the handler
propagate the exception — no TwiML connection instructions are issued,
contradicting the claim that any exception during the prefetch lookup is
caught. -/
theorem c3_prefetch_exception_counterexample :
    incoming_call errZoho []
      ⟨.ok ("9514409567", "CA123"), "", "", "example.com"⟩ = .error () := rfl

/-! ## Tool-call replies (C5) -/

/-- C5 (amended): whenever the tool dispatch returns without raising — in
particular for every unrecognized tool name — the
`response.function_call_arguments.done` handler sends exactly one
`conversation.item.create` of type function_call_output tagged with the
same call_id, followed by a `response.create`; an unrecognized name
produces the structured error object, not an exception. A tool
invocation that raises, however, terminates the loop without any reply:
see the counterexample. -/
theorem c5_reply_when_dispatch_returns (env : ZohoEnv) (kb : KbEnv)
    (sid cid name : Option String) (args : ToolArgs) (out : ToolOutput)
    (h : dispatchTool env kb name args = .ok out) :
    oaHandle env kb sid (.fcDone cid name args)
      = .ok ([OAMsg.itemCreate cid out, OAMsg.responseCreate false], []) ∧
    countItemCreate cid
      [OAMsg.itemCreate cid out, OAMsg.responseCreate false] = 1 ∧
    (name ≠ some "lookup_application_status" →
      name ≠ some "search_knowledge_base" →
      dispatchTool env kb name args
        = .ok (.unknownTool ("Unknown function: " ++ pyStr name))) := by
  refine ⟨?_, ?_, fun h1 h2 => ?_⟩
  · simp [oaHandle, h, bind, Except.bind, pure, Except.pure]
  · simp [countItemCreate]
  · simp [dispatchTool, h1, h2, pure, Except.pure]

/-- Witness for C5: an unrecognized tool name still gets exactly one
function_call_output reply carrying the structured error object. -/
theorem c5_reply_when_dispatch_returns_witness :
    oaHandle trivialZoho trivialKb none
      (OAEvent.fcDone (some "call_9") (some "transfer_call") {})
      = .ok ([OAMsg.itemCreate (some "call_9")
              (ToolOutput.unknownTool "Unknown function: transfer_call"),
             OAMsg.responseCreate false], []) :=
  (c5_reply_when_dispatch_returns trivialZoho trivialKb none (some "call_9")
    (some "transfer_call") {}
    (ToolOutput.unknownTool "Unknown function: transfer_call") rfl).1

/-- C5 counterexample: a recognized tool whose CRM call raises (network
exception in the token request) propagates out of the handler — the loop
dies and NO function_call_output is sent for that call_id, contradicting
the claim that every function_call_arguments.done event gets exactly one
reply. -/
theorem c5_tool_exception_counterexample :
    oaHandle errZoho trivialKb none
      (OAEvent.fcDone (some "call_1") (some "lookup_application_status")
        { phone := some "9514409567" }) = .error () := rfl

/-! ## Session configuration and greeting (C8) -/

theorem countSessionUpdate_append (xs ys : List OAMsg) :
    countSessionUpdate (xs ++ ys)
      = countSessionUpdate xs + countSessionUpdate ys := by
  induction xs with
  | nil => simp [countSessionUpdate]
  | cons x t ih => cases x <;> simp [countSessionUpdate, ih, Nat.add_assoc]

theorem countGreeting_append (xs ys : List OAMsg) :
    countGreeting (xs ++ ys) = countGreeting xs + countGreeting ys := by
  induction xs with
  | nil => simp [countGreeting]
  | cons x t ih =>
    cases x with
    | responseCreate b => cases b <;> simp [countGreeting, ih, Nat.add_assoc]
    | sessionUpdate i => simp [countGreeting, ih]
    | audioAppend a => simp [countGreeting, ih]
    | itemCreate c o => simp [countGreeting, ih]

theorem twRun_countSessionUpdate (evs : List TwEvent) (s : TwState) :
    countSessionUpdate (twRun s evs).2 = countStartsProcessed evs := by
  induction evs generalizing s with
  | nil => rfl
  | cons e rest ih =>
    cases e <;>
      simp [twRun, twHandle, countSessionUpdate, countSessionUpdate_append,
        countStartsProcessed, ih]

theorem twRun_countGreeting (evs : List TwEvent) (s : TwState) :
    countGreeting (twRun s evs).2 = countStartsProcessed evs := by
  induction evs generalizing s with
  | nil => rfl
  | cons e rest ih =>
    cases e <;>
      simp [twRun, twHandle, countGreeting, countGreeting_append,
        countStartsProcessed, ih]

theorem twRun_single_start (cache : Store) (k phone ssid : String)
    (pr : Option LookupResult)
    (hc : Store.lookup k cache = some ⟨phone, pr⟩)
    (hk : truthy (some k)) :
    (twRun ⟨cache, none, none, none, none⟩ [TwEvent.start ssid (some k)]).2
      = [OAMsg.sessionUpdate (get_system_prompt (some phone) pr),
         OAMsg.responseCreate true] := by
  simp [twRun, twHandle, hk, Store.takeIfPresent, hc]

theorem prompt_contains_first_name (cp lang ts : Option String)
    (fn ln st msg : String) :
    ∃ x y, get_system_prompt cp (some (.found fn ln st lang ts msg))
      = x ++ (fn ++ y) := by
  refine ⟨promptPrefix ++ ("\n## PRE-FETCHED CALLER DATA (from Caller ID: "
      ++ pyStr cp
      ++ ")\nA record was found matching the caller\'s phone number:\n- First Name: "),
    ("\n- Last Name: " ++ ln ++ "  \n- Language (SECRET - for verification only): "
      ++ pyStr lang ++ "\n- Status Message: " ++ msg ++ "\n" ++ prefetchSteps)
      ++ "\n" ++ promptSuffix, ?_⟩
  simp [get_system_prompt, prefetch_context, String.append_assoc]

/-- C8 (amended): the session configuration and the greeting trigger are
sent once per `start` event the Twilio loop processes — hence exactly
once for the single start event a Twilio stream delivers — and the
configuration rendered from a cached found-prefetch contains the
caller's first name. The handler keeps no sent-flag, so a duplicate
start event resends both: see the counterexample. -/
theorem c8_config_once_per_start (s : TwState) (evs : List TwEvent)
    (cache : Store) (k phone fn ln st msg ssid : String)
    (lang ts : Option String)
    (hc : Store.lookup k cache
      = some ⟨phone, some (.found fn ln st lang ts msg)⟩)
    (hk : truthy (some k)) :
    countSessionUpdate (twRun s evs).2 = countStartsProcessed evs ∧
    countGreeting (twRun s evs).2 = countStartsProcessed evs ∧
    (twRun ⟨cache, none, none, none, none⟩ [TwEvent.start ssid (some k)]).2
      = [OAMsg.sessionUpdate (get_system_prompt (some phone)
           (some (.found fn ln st lang ts msg))),
         OAMsg.responseCreate true] ∧
    ∃ x y, get_system_prompt (some phone) (some (.found fn ln st lang ts msg))
      = x ++ (fn ++ y) :=
  ⟨twRun_countSessionUpdate evs s, twRun_countGreeting evs s,
   twRun_single_start cache k phone ssid (some (.found fn ln st lang ts msg))
     hc hk,
   prompt_contains_first_name (some phone) lang ts fn ln st msg⟩

/-- The cache as the webhook leaves it in the test scenario of the spec:
Maria's found prefetch stored under `CA123`. -/
def mariaCache : Store :=
  [("CA123", ⟨"9514409567",
    some (.found "Maria" "Santos" "Qualified" (some "Portuguese") none
      "Congratulations! You have been qualified. We will reach out with next steps.")⟩)]

/-- Witness for C8: the single start event for `CA123` sends exactly one
session.update and one greeting trigger, and the instructions contain
"Maria". -/
theorem c8_config_once_per_start_witness :
    countSessionUpdate (twRun ⟨mariaCache, none, none, none, none⟩
        [TwEvent.start "MZ9" (some "CA123")]).2
      = countStartsProcessed [TwEvent.start "MZ9" (some "CA123")] ∧
    ∃ x y, get_system_prompt (some "9514409567")
        (some (.found "Maria" "Santos" "Qualified" (some "Portuguese") none
          "Congratulations! You have been qualified. We will reach out with next steps."))
      = x ++ ("Maria" ++ y) :=
  ⟨(c8_config_once_per_start ⟨mariaCache, none, none, none, none⟩
      [TwEvent.start "MZ9" (some "CA123")] mariaCache "CA123" "9514409567"
      "Maria" "Santos" "Qualified"
      "Congratulations! You have been qualified. We will reach out with next steps."
      "MZ9" (some "Portuguese") none rfl rfl).1,
   (c8_config_once_per_start ⟨mariaCache, none, none, none, none⟩
      [TwEvent.start "MZ9" (some "CA123")] mariaCache "CA123" "9514409567"
      "Maria" "Santos" "Qualified"
      "Congratulations! You have been qualified. We will reach out with next steps."
      "MZ9" (some "Portuguese") none rfl rfl).2.2.2⟩

/-- C8 counterexample: two start events for the same call make the loop
send the session configuration and the greeting trigger twice — they are
resent, contradicting the claim. -/
theorem c8_restart_counterexample :
    countSessionUpdate (twRun ⟨[], none, none, none, none⟩
      [TwEvent.start "MZ1" (some "CA1"), TwEvent.start "MZ1" (some "CA1")]).2
      = 2 ∧
    countGreeting (twRun ⟨[], none, none, none, none⟩
      [TwEvent.start "MZ1" (some "CA1"), TwEvent.start "MZ1" (some "CA1")]).2
      = 2 :=
  ⟨rfl, rfl⟩

/-! ## Loop termination and session close (C2) -/

theorem bridgeStep_closeCount (env : ZohoEnv) (kb : KbEnv) (sd : Side)
    (b : BridgeState) : (bridgeStep env kb sd b).closeCount = b.closeCount := by
  cases sd with
  | tw =>
    by_cases h : b.twDone
    · simp [bridgeStep, h]
    · cases hp : b.twPending <;> simp [bridgeStep, h, hp]
  | oa =>
    by_cases h : b.oaDone
    · simp [bridgeStep, h]
    · cases hp : b.oaPending with
      | nil => simp [bridgeStep, h, hp]
      | cons e rest =>
        cases ho : oaHandle env kb b.st.stream_sid e <;>
          simp [bridgeStep, h, hp, ho]

theorem bridgeRun_closeCount (env : ZohoEnv) (kb : KbEnv) :
    ∀ (sched : List Side) (b : BridgeState),
      (bridgeRun env kb sched b).closeCount = b.closeCount := by
  intro sched
  induction sched with
  | nil => intro b; rfl
  | cons sd rest ih =>
    intro b
    simp [bridgeRun, ih, bridgeStep_closeCount]

theorem bridgeStep_twDone_mono (env : ZohoEnv) (kb : KbEnv) (sd : Side)
    (b : BridgeState) (h : b.twDone = true) :
    (bridgeStep env kb sd b).twDone = true := by
  cases sd with
  | tw => simp [bridgeStep, h]
  | oa =>
    by_cases h2 : b.oaDone
    · simp [bridgeStep, h2, h]
    · cases hp : b.oaPending with
      | nil => simp [bridgeStep, h2, hp, h]
      | cons e rest =>
        cases ho : oaHandle env kb b.st.stream_sid e <;>
          simp [bridgeStep, h2, hp, ho, h]

theorem bridgeStep_oaDone_mono (env : ZohoEnv) (kb : KbEnv) (sd : Side)
    (b : BridgeState) (h : b.oaDone = true) :
    (bridgeStep env kb sd b).oaDone = true := by
  cases sd with
  | oa => simp [bridgeStep, h]
  | tw =>
    by_cases h2 : b.twDone
    · simp [bridgeStep, h2, h]
    · cases hp : b.twPending <;> simp [bridgeStep, h2, hp, h]

theorem bridgeStep_stop (env : ZohoEnv) (kb : KbEnv) (b : BridgeState)
    (rest : List TwEvent) (hp : b.twPending = TwEvent.stop :: rest)
    (h : b.twDone = false) :
    (bridgeStep env kb Side.tw b).twDone = true := by
  simp [bridgeStep, h, hp, twHandle]

/-- C2 (amended): a `stop` event terminates the transport-to-AI loop, and
a terminated loop stays terminated under every further step; the AI
session connection is closed by the finally-block exactly once per call,
and only once BOTH loops have terminated (asyncio.gather waits for both;
the library's close call is idempotent on an already-closed connection).
The claim's further assertion — that no tool-call work continues past the
stop event — fails: AI-side events pending after the stop are still
processed (see the counterexample). -/
theorem c2_close_once_after_both_loops (env : ZohoEnv) (kb : KbEnv)
    (sched : List Side) (b : BridgeState) (rest : List TwEvent) :
    (b.twPending = TwEvent.stop :: rest → b.twDone = false →
      (bridgeStep env kb Side.tw b).twDone = true) ∧
    (∀ sd, b.twDone = true → (bridgeStep env kb sd b).twDone = true) ∧
    (∀ sd, b.oaDone = true → (bridgeStep env kb sd b).oaDone = true) ∧
    ((bridgeRun env kb sched b).twDone = true →
      (bridgeRun env kb sched b).oaDone = true →
      b.closeCount = 0 →
      (mediaStreamRun env kb sched b).closeCount = 1) := by
  refine ⟨fun hp h => bridgeStep_stop env kb b rest hp h,
    fun sd h => bridgeStep_twDone_mono env kb sd b h,
    fun sd h => bridgeStep_oaDone_mono env kb sd b h,
    fun h1 h2 h0 => ?_⟩
  simp [mediaStreamRun, finallyClose, h1, h2, bridgeRun_closeCount, h0]

/-- The bridge state of a call whose transport queue holds a single stop
event and whose AI queue is already drained. -/
def bStopOnly : BridgeState :=
  { twPending := [TwEvent.stop], oaPending := [], st := { cache := [] } }

/-- Witness for C2: processing the stop terminates the transport loop,
and a schedule that drains both loops ends with exactly one close call. -/
theorem c2_close_once_after_both_loops_witness :
    (bridgeStep trivialZoho trivialKb Side.tw bStopOnly).twDone = true ∧
    (mediaStreamRun trivialZoho trivialKb [Side.tw, Side.oa] bStopOnly).closeCount
      = 1 :=
  ⟨(c2_close_once_after_both_loops trivialZoho trivialKb [Side.tw, Side.oa]
      bStopOnly []).1 rfl rfl,
   (c2_close_once_after_both_loops trivialZoho trivialKb [Side.tw, Side.oa]
      bStopOnly []).2.2.2 rfl rfl rfl⟩

/-- The bridge state of a call whose transport queue holds a stop event
while a tool-call request is still pending on the AI side. -/
def bStopWithTool : BridgeState :=
  { twPending := [TwEvent.stop],
    oaPending := [OAEvent.fcDone (some "call_7") (some "transfer_call") {}],
    st := { cache := [] } }

/-- C2 counterexample: after the transport loop has consumed the stop
event (the call is terminated on the transport side), the AI loop is NOT
cancelled — the next step still performs tool-call work and sends a
function_call_output to the AI session, contradicting the claim that no
tool-call work continues past call termination. `asyncio.gather` does
not cancel the sibling coroutine. -/
theorem c2_stop_counterexample :
    (bridgeStep trivialZoho trivialKb Side.tw bStopWithTool).twDone = true ∧
    (bridgeStep trivialZoho trivialKb Side.oa
        (bridgeStep trivialZoho trivialKb Side.tw bStopWithTool)).toOpenAI
      = [OAMsg.itemCreate (some "call_7")
          (ToolOutput.unknownTool "Unknown function: transfer_call"),
         OAMsg.responseCreate false] :=
  ⟨rfl, rfl⟩

end TwilioAgent
